import Mathlib

/-!
Shallow embedding of the EstoqueDigital storage layer (`server/storage.ts`,
`InMemoryStorage`, whose stock / requisition logic coincides with
`DatabaseStorage`) together with the route handlers relevant to the claims.
JavaScript `Map`s keyed by `id` are embedded as lists with replace-or-append
insertion (`setById`), mirroring `Map.set` semantics including insertion
order.  `randomUUID()` and `new Date()` are passed in as explicit `newId` /
`now` arguments.  Nullable fields are `Option`s; JavaScript string
truthiness (`null`/`undefined`/`""` falsy) is modelled explicitly where the
source relies on it.
-/

namespace Estoque

/-- Movement type enum (`movement_type` in `shared/schema.ts`):
ENTRADA = inbound, SAIDA = outbound, AJUSTE = adjustment. -/
inductive MovementType where
  | entrada
  | saida
  | ajuste
deriving DecidableEq, Repr

/-- Requisition status enum (`requisition_status` in `shared/schema.ts`). -/
inductive RequisitionStatus where
  | pendente
  | assinada
  | cancelada
deriving DecidableEq, Repr

/-- User role enum (`user_role` in `shared/schema.ts`). -/
inductive Role where
  | admin
  | estoque
  | funcionario
deriving DecidableEq, Repr

/-- A row of the `materials` table.  The decimal `unitPrice` is modelled as
an optional integer (its value never enters any logic). -/
structure Material where
  id : String
  name : String
  code : String
  unit : String
  unitPrice : Option Int := none
  minimumStock : Int := 0
  currentStock : Int := 0
  createdAt : Nat := 0
  updatedAt : Nat := 0
deriving DecidableEq, Repr

/-- A row of the `stock_movements` table. -/
structure StockMovement where
  id : String
  materialId : String
  type : MovementType
  quantity : Int
  unitPrice : Option Int := none
  observation : Option String := none
  userId : String
  requisitionId : Option String := none
  createdAt : Nat := 0
deriving DecidableEq, Repr

/-- A row of the `requisitions` table. -/
structure Requisition where
  id : String
  employeeId : String
  materialId : String
  quantity : Int
  observation : Option String := none
  status : RequisitionStatus := .pendente
  createdById : String
  signedAt : Option Nat := none
  signedByDevice : Option String := none
  signedByIp : Option String := none
  createdAt : Nat := 0
  updatedAt : Nat := 0
deriving DecidableEq, Repr

/-- A row of the `users` table. -/
structure User where
  id : String
  email : Option String := none
  firstName : Option String := none
  lastName : Option String := none
  profileImageUrl : Option String := none
  passwordHash : Option String := none
  role : Role := .funcionario
  createdAt : Nat := 0
  updatedAt : Nat := 0
deriving DecidableEq, Repr

/-- `InsertStockMovement` (`insertStockMovementSchema`): a movement payload
before `id` / `createdAt` are assigned. -/
structure InsertStockMovement where
  materialId : String
  type : MovementType
  quantity : Int
  unitPrice : Option Int := none
  observation : Option String := none
  userId : String
  requisitionId : Option String := none
deriving DecidableEq, Repr

/-- `InsertRequisition` (`insertRequisitionSchema`): note that `status` is
NOT omitted by the schema, so update payloads may carry it. -/
structure InsertRequisition where
  employeeId : String
  materialId : String
  quantity : Int
  observation : Option String := none
  status : Option RequisitionStatus := none
  createdById : String
deriving DecidableEq, Repr

/-- `Partial<InsertRequisition>`: every field optional, absent fields keep
the existing value under object spread. -/
structure UpdateRequisition where
  employeeId : Option String := none
  materialId : Option String := none
  quantity : Option Int := none
  observation : Option (Option String) := none
  status : Option RequisitionStatus := none
  createdById : Option String := none
deriving DecidableEq, Repr

/-- `InsertMaterial` (`insertMaterialSchema`): the schema omits `id`,
`createdAt`, `updatedAt` and `currentStock`. -/
structure InsertMaterial where
  name : String
  code : String
  unit : String
  unitPrice : Option Int := none
  minimumStock : Option Int := none
deriving DecidableEq, Repr

/-- A raw request body for material creation, before `insertMaterialSchema`
parsing; it may carry a `currentStock` value that the schema strips. -/
structure RawMaterialInput where
  name : String
  code : String
  unit : String
  unitPrice : Option Int := none
  minimumStock : Option Int := none
  currentStock : Option Int := none
deriving DecidableEq, Repr

/-- `insertMaterialSchema.parse`: keeps the declared fields and drops the
omitted ones (in particular any `currentStock` in the request body). -/
def insertMaterialSchemaParse (raw : RawMaterialInput) : InsertMaterial :=
  { name := raw.name
    code := raw.code
    unit := raw.unit
    unitPrice := raw.unitPrice
    minimumStock := raw.minimumStock }

/-- JavaScript truthiness of a nullable string: `null`/`undefined` and `""`
are falsy. -/
def strTruthy : Option String → Bool
  | none => false
  | some s => s != ""

/-- Lookup in an id-keyed list, mirroring `Map.get`. -/
def findById {α : Type} (key : α → String) (l : List α) (i : String) : Option α :=
  l.find? (fun x => key x == i)

/-- Replace-or-append insertion, mirroring `Map.set`: an existing key keeps
its position, a new key is appended. -/
def setById {α : Type} (key : α → String) : List α → α → List α
  | [], m => [m]
  | x :: xs, m => if key x == key m then m :: xs else x :: setById key xs m

theorem findById_cons {α : Type} (key : α → String) (x : α) (xs : List α) (i : String) :
    findById key (x :: xs) i = if key x == i then some x else findById key xs i := by
  by_cases hx : key x == i
  · rw [findById, List.find?_cons_of_pos (p := fun y => key y == i) _ hx, if_pos hx]
  · rw [findById, List.find?_cons_of_neg (p := fun y => key y == i) _ (by simpa using hx),
      if_neg hx]
    rfl

theorem findById_eq_some_key {α : Type} (key : α → String) (l : List α) (i : String)
    (m : α) (h : findById key l i = some m) : key m = i := by
  induction l with
  | nil => simp [findById] at h
  | cons x xs ih =>
    rw [findById_cons] at h
    by_cases hx : key x == i
    · rw [if_pos hx] at h
      cases h
      exact beq_iff_eq.mp hx
    · rw [if_neg hx] at h
      exact ih h

theorem findById_setById_same {α : Type} (key : α → String) (l : List α) (m : α) :
    findById key (setById key l m) (key m) = some m := by
  induction l with
  | nil => simp [findById, setById]
  | cons x xs ih =>
    by_cases hx : key x == key m
    · rw [setById, if_pos hx, findById_cons, if_pos (by simp)]
    · rw [setById, if_neg hx, findById_cons, if_neg hx]
      exact ih

theorem findById_setById_of_ne {α : Type} (key : α → String) (l : List α) (m : α)
    (i : String) (h : i ≠ key m) :
    findById key (setById key l m) i = findById key l i := by
  have hmi : ¬ (key m == i) = true := by
    simp only [beq_iff_eq]
    exact fun hc => h hc.symm
  induction l with
  | nil =>
    rw [setById, findById_cons, if_neg hmi]
  | cons x xs ih =>
    by_cases hx : key x == key m
    · have hxm : key x = key m := beq_iff_eq.mp hx
      have hxi : ¬ (key x == i) = true := by
        simp only [beq_iff_eq, hxm]
        exact fun hc => h hc.symm
      rw [setById, if_pos hx, findById_cons, if_neg hmi, findById_cons, if_neg hxi]
    · rw [setById, if_neg hx, findById_cons, findById_cons, ih]

theorem setById_of_fresh {α : Type} (key : α → String) (l : List α) (m : α)
    (h : findById key l (key m) = none) : setById key l m = l ++ [m] := by
  induction l with
  | nil => simp [setById]
  | cons x xs ih =>
    rw [findById_cons] at h
    by_cases hx : key x == key m
    · rw [if_pos hx] at h
      cases h
    · rw [if_neg hx] at h
      rw [setById, if_neg hx, List.cons_append]
      exact congrArg (x :: ·) (ih h)

/-- The in-memory store of `InMemoryStorage`: one id-keyed collection per
entity (audit logs are not needed by any claim's logic). -/
structure Storage where
  materials : List Material := []
  stockMovements : List StockMovement := []
  requisitions : List Requisition := []
  users : List User := []
deriving DecidableEq, Repr

/-- `getMaterial`: lookup by id. -/
def getMaterial (s : Storage) (id : String) : Option Material :=
  findById Material.id s.materials id

/-- `updateMaterialStock`: overwrite `currentStock` and refresh
`updatedAt`; a missing material is silently ignored. -/
def updateMaterialStock (s : Storage) (materialId : String) (newStock : Int) (now : Nat) :
    Storage :=
  match getMaterial s materialId with
  | none => s
  | some existing =>
      let updated : Material := { existing with currentStock := newStock, updatedAt := now }
      { s with materials := setById Material.id s.materials updated }

/-- The movement record built by `createStockMovement` from its payload. -/
def mkStockMovement (movement : InsertStockMovement) (newId : String) (now : Nat) :
    StockMovement :=
  { id := newId
    materialId := movement.materialId
    type := movement.type
    quantity := movement.quantity
    unitPrice := movement.unitPrice
    observation := movement.observation
    userId := movement.userId
    requisitionId := movement.requisitionId
    createdAt := now }

/-- `createStockMovement`: persist the movement, then, if the referenced
material exists, recompute its stock (`+quantity` for ENTRADA/AJUSTE,
`-quantity` for SAIDA) clamped below at 0. -/
def createStockMovement (s : Storage) (movement : InsertStockMovement) (newId : String)
    (now : Nat) : StockMovement × Storage :=
  let record := mkStockMovement movement newId now
  let s1 : Storage := { s with stockMovements := setById StockMovement.id s.stockMovements record }
  match getMaterial s1 movement.materialId with
  | none => (record, s1)
  | some material =>
      let newStock : Int :=
        match movement.type with
        | .entrada => material.currentStock + movement.quantity
        | .ajuste => material.currentStock + movement.quantity
        | .saida => material.currentStock - movement.quantity
      (record, updateMaterialStock s1 movement.materialId (max 0 newStock) now)

/-- The material record built by `createMaterial`: note `currentStock` is
the literal 0, not taken from the input. -/
def mkMaterial (material : InsertMaterial) (newId : String) (now : Nat) : Material :=
  { id := newId
    name := material.name
    code := material.code
    unit := material.unit
    unitPrice := material.unitPrice
    minimumStock := material.minimumStock.getD 0
    currentStock := 0
    createdAt := now
    updatedAt := now }

/-- `createMaterial`: assign a fresh id, initialize `currentStock` to 0
(the insert schema has no stock field), persist and return the record. -/
def createMaterial (s : Storage) (material : InsertMaterial) (newId : String) (now : Nat) :
    Material × Storage :=
  let record := mkMaterial material newId now
  (record, { s with materials := setById Material.id s.materials record })

/-- The requisition record built by `createRequisition`: default status
PENDENTE, null signing metadata. -/
def mkRequisition (requisition : InsertRequisition) (newId : String) (now : Nat) :
    Requisition :=
  { id := newId
    employeeId := requisition.employeeId
    materialId := requisition.materialId
    quantity := requisition.quantity
    observation := requisition.observation
    status := requisition.status.getD .pendente
    createdById := requisition.createdById
    signedAt := none
    signedByDevice := none
    signedByIp := none
    createdAt := now
    updatedAt := now }

/-- `createRequisition`: persist with default status PENDENTE and null
signing metadata. -/
def createRequisition (s : Storage) (requisition : InsertRequisition) (newId : String)
    (now : Nat) : Requisition × Storage :=
  let record := mkRequisition requisition newId now
  (record, { s with requisitions := setById Requisition.id s.requisitions record })

/-- Failure of `updateRequisition` (a thrown `Error`). -/
inductive UpdateError where
  | notFound
deriving DecidableEq, Repr

/-- The object-spread merge `{ ...existing, ...requisition }` of a partial
update over an existing requisition, with `updatedAt` refreshed. -/
def mergeRequisition (existing : Requisition) (requisition : UpdateRequisition)
    (now : Nat) : Requisition :=
  { existing with
    employeeId := requisition.employeeId.getD existing.employeeId
    materialId := requisition.materialId.getD existing.materialId
    quantity := requisition.quantity.getD existing.quantity
    observation := requisition.observation.getD existing.observation
    status := requisition.status.getD existing.status
    createdById := requisition.createdById.getD existing.createdById
    updatedAt := now }

/-- `updateRequisition`: merge the provided fields over the existing record
(object spread) and refresh `updatedAt`; fails if the id is unknown. -/
def updateRequisition (s : Storage) (id : String) (requisition : UpdateRequisition)
    (now : Nat) : Except UpdateError (Requisition × Storage) :=
  match findById Requisition.id s.requisitions id with
  | none => .error .notFound
  | some existing =>
      let updated := mergeRequisition existing requisition now
      .ok (updated, { s with requisitions := setById Requisition.id s.requisitions updated })

/-- Failures of `signRequisition`, with the HTTP status the storage layer
attaches to each thrown error. -/
inductive SignError where
  | notFound
  | forbidden
  | alreadySigned
deriving DecidableEq, Repr

/-- The `status` property the storage layer sets on each thrown error
(404 not found, 403 unauthorized signer, 400 already signed). -/
def signErrorStatus : SignError → Nat
  | .notFound => 404
  | .forbidden => 403
  | .alreadySigned => 400

/-- The guard `signerId && requisition.employeeId !== signerId`: note the
JavaScript truthiness test, so an empty-string signer skips the check. -/
def signerMismatch (signerId : Option String) (employeeId : String) : Bool :=
  match signerId with
  | none => false
  | some sid => sid != "" && employeeId != sid

/-- The derived movement note: the requisition note with a fixed label when
truthy, otherwise the bare default label. -/
def signObservationText : Option String → String
  | some o => if o != "" then "Requisição assinada - " ++ o else "Requisição assinada"
  | none => "Requisição assinada"

/-- The requisition record as rewritten by a successful signing: status
ASSINADA, `signedAt` stamped, device/ip stored, `updatedAt` refreshed. -/
def signedUpdate (requisition : Requisition) (signedByDevice signedByIp : Option String)
    (now : Nat) : Requisition :=
  { requisition with
    status := .assinada
    signedAt := some now
    signedByDevice := signedByDevice
    signedByIp := signedByIp
    updatedAt := now }

/-- The outbound movement payload synthesized by a successful signing. -/
def signMovementPayload (requisition : Requisition) (id : String) : InsertStockMovement :=
  { materialId := requisition.materialId
    type := .saida
    quantity := requisition.quantity
    observation := some (signObservationText requisition.observation)
    userId := requisition.employeeId
    requisitionId := some id }

/-- `signRequisition`: look up the requisition, run the three guards in
source order (not found, unauthorized signer, already signed), then mark it
ASSINADA with signing metadata and persist one derived SAIDA movement; the
updated requisition (not the movement) is returned. -/
def signRequisition (s : Storage) (id : String)
    (signedByDevice signedByIp signerId : Option String) (newMovementId : String)
    (now : Nat) : Except SignError (Requisition × Storage) :=
  match findById Requisition.id s.requisitions id with
  | none => .error .notFound
  | some requisition =>
      if signerMismatch signerId requisition.employeeId then .error .forbidden
      else if requisition.status == .assinada then .error .alreadySigned
      else
        let updated := signedUpdate requisition signedByDevice signedByIp now
        let s1 : Storage := { s with requisitions := setById Requisition.id s.requisitions updated }
        let result :=
          createStockMovement s1 (signMovementPayload requisition id) newMovementId now
        .ok (updated, result.2)

/-- The storage state observed by a caller of `signRequisition`: since all
guards precede any mutation, a thrown error leaves the store untouched. -/
def signRequisitionFinalState (s : Storage) (id : String)
    (signedByDevice signedByIp signerId : Option String) (newMovementId : String)
    (now : Nat) : Storage :=
  match signRequisition s id signedByDevice signedByIp signerId newMovementId now with
  | .ok p => p.2
  | .error _ => s

/-- The signed delta a movement contributes to its material's stock:
`+quantity` for ENTRADA/AJUSTE, `-quantity` for SAIDA. -/
def movementDelta (movement : InsertStockMovement) : Int :=
  match movement.type with
  | .entrada => movement.quantity
  | .ajuste => movement.quantity
  | .saida => -movement.quantity

/-- One clamped stock update as performed by `createStockMovement`. -/
def clampedStep (acc : Int) (movement : InsertStockMovement) : Int :=
  max 0 (acc + movementDelta movement)

/-- Apply a sequence of `createStockMovement` calls; each step carries its
payload together with the fresh id and timestamp of that call. -/
def applyMovements (s : Storage) (steps : List (InsertStockMovement × String × Nat)) :
    Storage :=
  steps.foldl (fun st step => (createStockMovement st step.1 step.2.1 step.2.2).2) s

/-- The requisition repository operations quantified over by the lifecycle
claim. -/
inductive RepoOp where
  | create (input : InsertRequisition) (newId : String) (now : Nat)
  | update (id : String) (patch : UpdateRequisition) (now : Nat)
  | sign (id : String) (signedByDevice signedByIp signerId : Option String)
      (newMovementId : String) (now : Nat)
deriving DecidableEq, Repr

/-- Run one repository operation; a thrown error leaves the store as it
was (all guards precede any mutation in the source). -/
def applyRepoOp (s : Storage) : RepoOp → Storage
  | .create input newId now => (createRequisition s input newId now).2
  | .update id patch now =>
      match updateRequisition s id patch now with
      | .ok p => p.2
      | .error _ => s
  | .sign id devi ip signer newMovementId now =>
      signRequisitionFinalState s id devi ip signer newMovementId now

/-- Run a sequence of repository operations. -/
def applyRepoOps (s : Storage) (ops : List RepoOp) : Storage :=
  ops.foldl applyRepoOp s

/-- `getUser`: lookup by id. -/
def getUser (s : Storage) (id : String) : Option User :=
  findById User.id s.users id

/-- `getUserByEmail`: case-insensitive email match. -/
def getUserByEmail (s : Storage) (email : String) : Option User :=
  s.users.find? (fun u =>
    match u.email with
    | some e => e.toLower == email.toLower
    | none => false)

/-- `createEmployeeUser`: split the trimmed name into first/last parts and
store a FUNCIONARIO user with the supplied credential hash (whitespace
splitting of the name regex is modelled with `Char.isWhitespace`). -/
def createEmployeeUser (s : Storage) (name email passwordHash : String) (newId : String)
    (now : Nat) : User × Storage :=
  let trimmedName := name.trim
  let parts := (trimmedName.split Char.isWhitespace).filter (fun w => w != "")
  let firstName :=
    match parts with
    | [] => trimmedName
    | f :: _ => f
  let lastName : Option String :=
    match parts with
    | [] => none
    | _ :: rest => if rest.isEmpty then none else some (String.intercalate " " rest)
  let user : User :=
    { id := newId
      email := some email.toLower
      firstName := some firstName
      lastName := lastName
      profileImageUrl := none
      passwordHash := some passwordHash
      role := .funcionario
      createdAt := now
      updatedAt := now }
  (user, { s with users := setById User.id s.users user })

/-- A JSON response body as produced by the employee self-service handlers:
either a plain message, a message with a Zod error list, the sanitized user
(credential hash destructured away), or a raw user record. -/
inductive RespBody where
  | message (text : String)
  | messageWithErrors (text : String)
  | sanitizedUser (u : User)
  | rawUser (u : User)
deriving DecidableEq, Repr

/-- The JSON keys of a serialized full `User` record. -/
def userJsonKeys : List String :=
  ["id", "email", "firstName", "lastName", "profileImageUrl", "passwordHash", "role",
    "createdAt", "updatedAt"]

/-- The keys left by `sanitizeUser`, which destructures `passwordHash` out
of the record and returns the rest. -/
def sanitizeUserKeys : List String :=
  userJsonKeys.erase "passwordHash"

/-- The JSON keys present in a response body. -/
def bodyKeys : RespBody → List String
  | .message _ => ["message"]
  | .messageWithErrors _ => ["message", "errors"]
  | .sanitizedUser _ => sanitizeUserKeys
  | .rawUser _ => userJsonKeys

/-- Abstraction of the Zod email format check (its exact regex is
irrelevant to every claim; only which branch is taken matters). -/
def emailFormatOk (email : String) : Bool :=
  email.toList.contains '@'

/-- `employeeRegistrationSchema`: non-empty name, well-formed email,
password of at least 6 characters. -/
def registerPayloadOk (name email password : String) : Bool :=
  decide (1 ≤ name.length) && emailFormatOk email && decide (6 ≤ password.length)

/-- `employeeLoginSchema`: well-formed email, non-empty password. -/
def loginPayloadOk (email password : String) : Bool :=
  emailFormatOk email && decide (1 ≤ password.length)

/-- Request body of `POST /api/employee/register`. -/
structure RegisterPayload where
  name : String
  email : String
  password : String
deriving DecidableEq, Repr

/-- Request body of `POST /api/employee/login`. -/
structure LoginPayload where
  email : String
  password : String
deriving DecidableEq, Repr

/-- The `POST /api/employee/register` handler: status code, response body
and resulting store (the password hash produced by scrypt is passed in). -/
def employeeRegister (s : Storage) (p : RegisterPayload) (passwordHash : String)
    (newId : String) (now : Nat) : Nat × RespBody × Storage :=
  if registerPayloadOk p.name p.email p.password then
    match getUserByEmail s p.email with
    | some _ => (400, .message "E-mail já cadastrado", s)
    | none =>
        let created := createEmployeeUser s p.name p.email passwordHash newId now
        (201, .sanitizedUser created.1, created.2)
  else (400, .messageWithErrors "Dados inválidos", s)

/-- The `POST /api/employee/login` handler: status code, response body and
the session employee id it stores on success.  The scrypt comparison is
passed in as `verify`; the property proved below holds for every `verify`. -/
def employeeLogin (s : Storage) (p : LoginPayload) (verify : String → String → Bool) :
    Nat × RespBody × Option String :=
  if loginPayloadOk p.email p.password then
    match getUserByEmail s p.email with
    | none => (401, .message "Credenciais inválidas", none)
    | some user =>
        if user.role == .funcionario && strTruthy user.passwordHash then
          if verify p.password (user.passwordHash.getD "") then
            (200, .sanitizedUser user, some user.id)
          else (401, .message "Credenciais inválidas", none)
        else (401, .message "Credenciais inválidas", none)
  else (400, .messageWithErrors "Dados inválidos", none)

/-- The `GET /api/employee/me` handler. -/
def employeeMe (s : Storage) (sessionEmployeeId : Option String) : Nat × RespBody :=
  if strTruthy sessionEmployeeId then
    match getUser s (sessionEmployeeId.getD "") with
    | none => (403, .message "Acesso restrito a funcionários")
    | some user =>
        if user.role == .funcionario then (200, .sanitizedUser user)
        else (403, .message "Acesso restrito a funcionários")
  else (401, .message "Não autenticado")

/-- The admin `POST /api/requisitions/:id/sign` handler: it calls
`signRequisition` without a signer id and, on a thrown error, responds with
the error's own `status` when one is attached, else 500; success responds
200 with the updated requisition. -/
def adminSignResponseStatus (s : Storage) (id : String)
    (signedByDevice signedByIp : Option String) (newMovementId : String) (now : Nat) :
    Nat :=
  match signRequisition s id signedByDevice signedByIp none newMovementId now with
  | .ok _ => 200
  | .error e => if signErrorStatus e ≠ 0 then signErrorStatus e else 500

theorem getMaterial_set_movements (s : Storage) (l : List StockMovement) (i : String) :
    getMaterial { s with stockMovements := l } i = getMaterial s i := rfl

theorem getMaterial_set_requisitions (s : Storage) (l : List Requisition) (i : String) :
    getMaterial { s with requisitions := l } i = getMaterial s i := rfl

theorem createStockMovement_fst (s : Storage) (mv : InsertStockMovement) (i : String)
    (n : Nat) : (createStockMovement s mv i n).1 = mkStockMovement mv i n := by
  unfold createStockMovement
  dsimp only
  split <;> rfl

theorem createStockMovement_stockMovements (s : Storage) (mv : InsertStockMovement)
    (i : String) (n : Nat) :
    (createStockMovement s mv i n).2.stockMovements =
      setById StockMovement.id s.stockMovements (mkStockMovement mv i n) := by
  unfold createStockMovement updateMaterialStock
  dsimp only
  split
  · rfl
  · split <;> rfl

theorem createStockMovement_requisitions (s : Storage) (mv : InsertStockMovement)
    (i : String) (n : Nat) :
    (createStockMovement s mv i n).2.requisitions = s.requisitions := by
  unfold createStockMovement updateMaterialStock
  dsimp only
  split
  · rfl
  · split <;> rfl

theorem createStockMovement_users (s : Storage) (mv : InsertStockMovement)
    (i : String) (n : Nat) :
    (createStockMovement s mv i n).2.users = s.users := by
  unfold createStockMovement updateMaterialStock
  dsimp only
  split
  · rfl
  · split <;> rfl

theorem createStockMovement_materials_of_missing (s : Storage) (mv : InsertStockMovement)
    (i : String) (n : Nat) (h : getMaterial s mv.materialId = none) :
    (createStockMovement s mv i n).2.materials = s.materials := by
  unfold createStockMovement
  dsimp only
  rw [getMaterial_set_movements, h]

theorem clampedStep_eq_code (cur : Int) (mv : InsertStockMovement) :
    clampedStep cur mv =
      max 0 (match mv.type with
        | .entrada => cur + mv.quantity
        | .ajuste => cur + mv.quantity
        | .saida => cur - mv.quantity) := by
  cases h : mv.type <;> simp [clampedStep, movementDelta, h, sub_eq_add_neg]

theorem createStockMovement_stock_found (s : Storage) (mv : InsertStockMovement)
    (i : String) (n : Nat) (mat : Material) (h : getMaterial s mv.materialId = some mat) :
    findById Material.id (createStockMovement s mv i n).2.materials mv.materialId =
      some { mat with currentStock := clampedStep mat.currentStock mv, updatedAt := n } := by
  have hkey : mat.id = mv.materialId := findById_eq_some_key _ _ _ _ h
  unfold createStockMovement updateMaterialStock
  dsimp only
  simp only [getMaterial_set_movements, h]
  rw [clampedStep_eq_code]
  rw [← hkey]
  exact findById_setById_same Material.id s.materials _

theorem applyMovements_stock (steps : List (InsertStockMovement × String × Nat))
    (s : Storage) (mid : String) (mat : Material) (h : getMaterial s mid = some mat)
    (hall : ∀ st ∈ steps, st.1.materialId = mid) :
    (findById Material.id (applyMovements s steps).materials mid).map Material.currentStock =
      some ((steps.map Prod.fst).foldl clampedStep mat.currentStock) := by
  induction steps generalizing s mat with
  | nil =>
    rw [getMaterial] at h
    simp [applyMovements, h]
  | cons st rest ih =>
    have hm : st.1.materialId = mid := hall st (by simp)
    have hstep := createStockMovement_stock_found s st.1 st.2.1 st.2.2 mat (by rw [hm]; exact h)
    have h' : getMaterial (createStockMovement s st.1 st.2.1 st.2.2).2 mid =
        some { mat with currentStock := clampedStep mat.currentStock st.1, updatedAt := st.2.2 } := by
      rw [getMaterial, ← hm]
      exact hstep
    have hrest := ih (createStockMovement s st.1 st.2.1 st.2.2).2 _ h'
      (fun st' hst' => hall st' (List.mem_cons_of_mem _ hst'))
    simpa [applyMovements, List.foldl_cons] using hrest

theorem signRequisition_notFound (s : Storage) (id : String)
    (dev ip signer : Option String) (mvId : String) (now : Nat)
    (h : findById Requisition.id s.requisitions id = none) :
    signRequisition s id dev ip signer mvId now = .error .notFound := by
  unfold signRequisition
  rw [h]

theorem signRequisition_forbidden_eq (s : Storage) (id : String)
    (dev ip signer : Option String) (mvId : String) (now : Nat) (r : Requisition)
    (hfind : findById Requisition.id s.requisitions id = some r)
    (hguard : signerMismatch signer r.employeeId = true) :
    signRequisition s id dev ip signer mvId now = .error .forbidden := by
  unfold signRequisition
  rw [hfind]
  dsimp only
  rw [hguard]
  rfl

theorem signRequisition_alreadySigned_eq (s : Storage) (id : String)
    (dev ip signer : Option String) (mvId : String) (now : Nat) (r : Requisition)
    (hfind : findById Requisition.id s.requisitions id = some r)
    (hguard : signerMismatch signer r.employeeId = false)
    (hstatus : r.status = .assinada) :
    signRequisition s id dev ip signer mvId now = .error .alreadySigned := by
  unfold signRequisition
  rw [hfind]
  dsimp only
  rw [hguard]
  have hbeq : (r.status == RequisitionStatus.assinada) = true := beq_iff_eq.mpr hstatus
  simp [hbeq]

theorem signRequisition_ok_eq (s : Storage) (id : String)
    (dev ip signer : Option String) (mvId : String) (now : Nat) (r : Requisition)
    (hfind : findById Requisition.id s.requisitions id = some r)
    (hguard : signerMismatch signer r.employeeId = false)
    (hstatus : r.status ≠ .assinada) :
    signRequisition s id dev ip signer mvId now =
      .ok (signedUpdate r dev ip now,
        (createStockMovement
          { s with requisitions :=
              setById Requisition.id s.requisitions (signedUpdate r dev ip now) }
          (signMovementPayload r id) mvId now).2) := by
  unfold signRequisition
  rw [hfind]
  dsimp only
  rw [hguard]
  have hbeq : (r.status == RequisitionStatus.assinada) = false := by
    simp [hstatus]
  simp [hbeq]

theorem updateRequisition_ok_eq (s : Storage) (id : String) (patch : UpdateRequisition)
    (now : Nat) (existing : Requisition)
    (hfind : findById Requisition.id s.requisitions id = some existing) :
    updateRequisition s id patch now =
      .ok (mergeRequisition existing patch now,
        { s with requisitions :=
            setById Requisition.id s.requisitions (mergeRequisition existing patch now) }) := by
  unfold updateRequisition
  rw [hfind]

theorem updateRequisition_notFound (s : Storage) (id : String) (patch : UpdateRequisition)
    (now : Nat) (hfind : findById Requisition.id s.requisitions id = none) :
    updateRequisition s id patch now = .error .notFound := by
  unfold updateRequisition
  rw [hfind]

/-- Side condition under which the lifecycle claim is provable: fresh ids
for created requisitions, and no update payload that explicitly carries
status PENDENTE.  Sign operations need no restriction. -/
def opPreservesSigned (rid : String) : RepoOp → Bool
  | .create _ newId _ => newId != rid
  | .update _ patch _ => patch.status != some .pendente
  | .sign _ _ _ _ _ _ => true

theorem applyRepoOp_preserves_nonpendente (s : Storage) (rid : String) (op : RepoOp)
    (hop : opPreservesSigned rid op = true)
    (hinv : ∀ q, findById Requisition.id s.requisitions rid = some q →
      q.status ≠ .pendente) :
    ∀ q, findById Requisition.id (applyRepoOp s op).requisitions rid = some q →
      q.status ≠ .pendente := by
  intro q hq
  cases op with
  | create input newId now =>
    have hne : newId ≠ rid := by simpa [opPreservesSigned] using hop
    have happ : (applyRepoOp s (.create input newId now)).requisitions =
        setById Requisition.id s.requisitions (mkRequisition input newId now) := rfl
    rw [happ, findById_setById_of_ne Requisition.id s.requisitions _ rid
      (fun hc => hne (by simpa [mkRequisition] using hc.symm))] at hq
    exact hinv q hq
  | update uid patch now =>
    have hpatch : patch.status ≠ some .pendente := by simpa [opPreservesSigned] using hop
    cases hf : findById Requisition.id s.requisitions uid with
    | none =>
      have happ : applyRepoOp s (.update uid patch now) = s := by
        show (match updateRequisition s uid patch now with
          | .ok p => p.2
          | .error _ => s) = s
        rw [updateRequisition_notFound s uid patch now hf]
      rw [happ] at hq
      exact hinv q hq
    | some existing =>
      have hkey : existing.id = uid := findById_eq_some_key _ _ _ _ hf
      have happ : applyRepoOp s (.update uid patch now) =
          { s with requisitions :=
              setById Requisition.id s.requisitions (mergeRequisition existing patch now) } := by
        show (match updateRequisition s uid patch now with
          | .ok p => p.2
          | .error _ => s) = _
        rw [updateRequisition_ok_eq s uid patch now existing hf]
      rw [happ] at hq
      have hmkey : Requisition.id (mergeRequisition existing patch now) = uid := hkey
      by_cases hrid : rid = uid
      · subst hrid
        rw [show rid = Requisition.id (mergeRequisition existing patch now) from hmkey.symm,
          findById_setById_same] at hq
        cases hq
        have hexist : existing.status ≠ .pendente := hinv existing (hmkey ▸ hf)
        cases hps : patch.status with
        | none => simpa [mergeRequisition, hps] using hexist
        | some st =>
          have : st ≠ .pendente := fun hc => hpatch (by rw [hps, hc])
          simpa [mergeRequisition, hps] using this
      · rw [findById_setById_of_ne Requisition.id s.requisitions _ rid
          (fun hc => hrid (hc.trans hmkey))] at hq
        exact hinv q hq
  | sign sid dev ip signer mvId now =>
    cases hf : findById Requisition.id s.requisitions sid with
    | none =>
      have happ : applyRepoOp s (.sign sid dev ip signer mvId now) = s := by
        show signRequisitionFinalState s sid dev ip signer mvId now = s
        unfold signRequisitionFinalState
        rw [signRequisition_notFound s sid dev ip signer mvId now hf]
      rw [happ] at hq
      exact hinv q hq
    | some r =>
      have hkey : r.id = sid := findById_eq_some_key _ _ _ _ hf
      cases hg : signerMismatch signer r.employeeId with
      | true =>
        have happ : applyRepoOp s (.sign sid dev ip signer mvId now) = s := by
          show signRequisitionFinalState s sid dev ip signer mvId now = s
          unfold signRequisitionFinalState
          rw [signRequisition_forbidden_eq s sid dev ip signer mvId now r hf hg]
        rw [happ] at hq
        exact hinv q hq
      | false =>
        by_cases hst : r.status = .assinada
        · have happ : applyRepoOp s (.sign sid dev ip signer mvId now) = s := by
            show signRequisitionFinalState s sid dev ip signer mvId now = s
            unfold signRequisitionFinalState
            rw [signRequisition_alreadySigned_eq s sid dev ip signer mvId now r hf hg hst]
          rw [happ] at hq
          exact hinv q hq
        · have happ : (applyRepoOp s (.sign sid dev ip signer mvId now)).requisitions =
              setById Requisition.id s.requisitions (signedUpdate r dev ip now) := by
            show (signRequisitionFinalState s sid dev ip signer mvId now).requisitions = _
            unfold signRequisitionFinalState
            rw [signRequisition_ok_eq s sid dev ip signer mvId now r hf hg hst]
            exact createStockMovement_requisitions _ _ _ _
          rw [happ] at hq
          have hskey : Requisition.id (signedUpdate r dev ip now) = sid := hkey
          by_cases hrid : rid = sid
          · subst hrid
            rw [show rid = Requisition.id (signedUpdate r dev ip now) from hskey.symm,
              findById_setById_same] at hq
            cases hq
            simp [signedUpdate]
          · rw [findById_setById_of_ne Requisition.id s.requisitions _ rid
              (fun hc => hrid (hc.trans hskey))] at hq
            exact hinv q hq

theorem applyRepoOps_preserves_nonpendente (ops : List RepoOp) (s : Storage) (rid : String)
    (hops : ∀ op ∈ ops, opPreservesSigned rid op = true)
    (hinv : ∀ q, findById Requisition.id s.requisitions rid = some q →
      q.status ≠ .pendente) :
    ∀ q, findById Requisition.id (applyRepoOps s ops).requisitions rid = some q →
      q.status ≠ .pendente := by
  induction ops generalizing s with
  | nil => exact hinv
  | cons op rest ih =>
    have hstep := applyRepoOp_preserves_nonpendente s rid op (hops op (by simp)) hinv
    have : applyRepoOps s (op :: rest) = applyRepoOps (applyRepoOp s op) rest := rfl
    rw [this]
    exact ih (applyRepoOp s op) (fun o ho => hops o (List.mem_cons_of_mem _ ho)) hstep

/-- The empty store. -/
def emptyStorage : Storage := {}

/-- A material with zero stock, as `createMaterial` would produce it. -/
def c1Material : Material :=
  { id := "m1", name := "Bolt", code := "B-1", unit := "un" }

/-- A store holding only `c1Material`. -/
def c1Storage : Storage := { materials := [c1Material] }

/-- An outbound movement of 5 followed by an inbound movement of 3 on the
same material. -/
def c1Steps : List (InsertStockMovement × String × Nat) :=
  [({ materialId := "m1", type := .saida, quantity := 5, userId := "u1" }, "mv1", 1),
    ({ materialId := "m1", type := .entrada, quantity := 3, userId := "u1" }, "mv2", 2)]

/-- C1, counterexample: starting from stock 0, applying OUTBOUND 5 then
INBOUND 3 leaves `currentStock = 3`, while the claimed formula
`max 0 (initial + signed sum)` gives `max 0 (-2) = 0`; the claim as stated
is therefore false, because clamping is applied per movement, not once at
the end. -/
theorem C1_counterexample :
    (findById Material.id (applyMovements c1Storage c1Steps).materials "m1").map
        Material.currentStock = some 3 ∧
    c1Material.currentStock +
        (c1Steps.map Prod.fst).foldl (fun acc mv => acc + movementDelta mv) 0 = -2 ∧
    ¬ ((findById Material.id (applyMovements c1Storage c1Steps).materials "m1").map
        Material.currentStock =
      some (max 0 (c1Material.currentStock +
        (c1Steps.map Prod.fst).foldl (fun acc mv => acc + movementDelta mv) 0))) := by
  refine ⟨rfl, by decide, ?_⟩
  intro h
  rw [show (findById Material.id (applyMovements c1Storage c1Steps).materials "m1").map
      Material.currentStock = some 3 from rfl] at h
  revert h
  decide

/-- C1, amended: after a sequence of `createStockMovement` calls on one
material, its `currentStock` is the left fold of the per-movement clamped
update `acc ↦ max 0 (acc + signed delta)` over the sequence, starting from
the initial stock (this equals `max 0 (initial + signed sum)` only when no
intermediate clamping fires). -/
theorem C1_stock_is_clamped_fold (steps : List (InsertStockMovement × String × Nat))
    (s : Storage) (mid : String) (mat : Material) (h : getMaterial s mid = some mat)
    (hall : ∀ st ∈ steps, st.1.materialId = mid) :
    (findById Material.id (applyMovements s steps).materials mid).map Material.currentStock =
      some ((steps.map Prod.fst).foldl clampedStep mat.currentStock) :=
  applyMovements_stock steps s mid mat h hall

/-- C1, witness: the amended statement evaluated on the two-movement
counterexample sequence gives the code's actual result 3. -/
theorem C1_witness :
    (findById Material.id (applyMovements c1Storage c1Steps).materials "m1").map
        Material.currentStock = some 3 := by
  have h := C1_stock_is_clamped_fold c1Steps c1Storage "m1" c1Material rfl (by decide)
  rw [h]
  decide

/-- C5: a single `createStockMovement` on an existing material updates its
stock to `max 0 (old + quantity)` for ENTRADA/AJUSTE and
`max 0 (old - quantity)` for SAIDA; the call is total, so an OUTBOUND
exceeding the stock clamps at 0 instead of failing. -/
theorem C5_single_movement_clamps (s : Storage) (mv : InsertStockMovement)
    (newId : String) (now : Nat) (mat : Material)
    (h : getMaterial s mv.materialId = some mat) :
    (mv.type = .entrada →
      (findById Material.id (createStockMovement s mv newId now).2.materials
          mv.materialId).map Material.currentStock =
        some (max 0 (mat.currentStock + mv.quantity))) ∧
    (mv.type = .ajuste →
      (findById Material.id (createStockMovement s mv newId now).2.materials
          mv.materialId).map Material.currentStock =
        some (max 0 (mat.currentStock + mv.quantity))) ∧
    (mv.type = .saida →
      (findById Material.id (createStockMovement s mv newId now).2.materials
          mv.materialId).map Material.currentStock =
        some (max 0 (mat.currentStock - mv.quantity))) := by
  refine ⟨?_, ?_, ?_⟩ <;> intro ht <;>
    rw [createStockMovement_stock_found s mv newId now mat h] <;>
    simp [clampedStep, movementDelta, ht, sub_eq_add_neg]

/-- A material holding 15 units, as in the spec scenario. -/
def c5Material : Material :=
  { id := "m1", name := "Bolt", code := "B-1", unit := "un", minimumStock := 10,
    currentStock := 15 }

/-- A store holding only `c5Material`. -/
def c5Storage : Storage := { materials := [c5Material] }

/-- The spec scenario's OUTBOUND movement of 20 against stock 15. -/
def c5Out : InsertStockMovement :=
  { materialId := "m1", type := .saida, quantity := 20, userId := "u1" }

/-- C5, witness: OUTBOUND 20 against stock 15 clamps the stock to exactly
0 rather than failing or going negative. -/
theorem C5_witness :
    (findById Material.id (createStockMovement c5Storage c5Out "mv1" 1).2.materials
        c5Out.materialId).map Material.currentStock = some 0 := by
  have h := (C5_single_movement_clamps c5Storage c5Out "mv1" 1 c5Material rfl).2.2 rfl
  rw [h]
  decide

/-- C8: `createMaterial` on any parsed input returns and persists a record
with `currentStock = 0` regardless of any stock value in the raw request
body, carrying the fresh id and the provided fields. -/
theorem C8_create_material_zero_stock (s : Storage) (raw : RawMaterialInput)
    (newId : String) (now : Nat)
    (hfresh : findById Material.id s.materials newId = none) :
    (createMaterial s (insertMaterialSchemaParse raw) newId now).1.currentStock = 0 ∧
    (createMaterial s (insertMaterialSchemaParse raw) newId now).1.id = newId ∧
    (createMaterial s (insertMaterialSchemaParse raw) newId now).1.name = raw.name ∧
    (createMaterial s (insertMaterialSchemaParse raw) newId now).1.code = raw.code ∧
    (createMaterial s (insertMaterialSchemaParse raw) newId now).1.unit = raw.unit ∧
    (createMaterial s (insertMaterialSchemaParse raw) newId now).1.unitPrice = raw.unitPrice ∧
    (createMaterial s (insertMaterialSchemaParse raw) newId now).1.minimumStock =
      raw.minimumStock.getD 0 ∧
    (createMaterial s (insertMaterialSchemaParse raw) newId now).2.materials =
      s.materials ++ [(createMaterial s (insertMaterialSchemaParse raw) newId now).1] := by
  refine ⟨rfl, rfl, rfl, rfl, rfl, rfl, rfl, ?_⟩
  exact setById_of_fresh Material.id s.materials _ hfresh

/-- A raw material request body that tries to smuggle in a stock of 99. -/
def c8Raw : RawMaterialInput :=
  { name := "Bolt", code := "B-1", unit := "un", minimumStock := some 10,
    currentStock := some 99 }

/-- C8, witness: even a request body carrying `currentStock = 99` yields a
persisted material with stock 0. -/
theorem C8_witness :
    (createMaterial emptyStorage (insertMaterialSchemaParse c8Raw) "m1" 1).1.currentStock = 0 ∧
    (createMaterial emptyStorage (insertMaterialSchemaParse c8Raw) "m1" 1).1.id = "m1" ∧
    (createMaterial emptyStorage (insertMaterialSchemaParse c8Raw) "m1" 1).1.name = c8Raw.name ∧
    (createMaterial emptyStorage (insertMaterialSchemaParse c8Raw) "m1" 1).1.code = c8Raw.code ∧
    (createMaterial emptyStorage (insertMaterialSchemaParse c8Raw) "m1" 1).1.unit = c8Raw.unit ∧
    (createMaterial emptyStorage (insertMaterialSchemaParse c8Raw) "m1" 1).1.unitPrice =
      c8Raw.unitPrice ∧
    (createMaterial emptyStorage (insertMaterialSchemaParse c8Raw) "m1" 1).1.minimumStock =
      c8Raw.minimumStock.getD 0 ∧
    (createMaterial emptyStorage (insertMaterialSchemaParse c8Raw) "m1" 1).2.materials =
      emptyStorage.materials ++
        [(createMaterial emptyStorage (insertMaterialSchemaParse c8Raw) "m1" 1).1] :=
  C8_create_material_zero_stock emptyStorage c8Raw "m1" 1 rfl

/-- C10: a `createStockMovement` whose `materialId` matches no stored
material still persists and returns the movement record (a dangling ledger
entry), does not fail, and leaves every material untouched. -/
theorem C10_dangling_movement (s : Storage) (mv : InsertStockMovement) (newId : String)
    (now : Nat) (h : getMaterial s mv.materialId = none)
    (hfresh : findById StockMovement.id s.stockMovements newId = none) :
    (createStockMovement s mv newId now).1 = mkStockMovement mv newId now ∧
    (createStockMovement s mv newId now).2.stockMovements =
      s.stockMovements ++ [mkStockMovement mv newId now] ∧
    (createStockMovement s mv newId now).2.materials = s.materials ∧
    (mkStockMovement mv newId now).materialId = mv.materialId := by
  refine ⟨createStockMovement_fst s mv newId now, ?_,
    createStockMovement_materials_of_missing s mv newId now h, rfl⟩
  rw [createStockMovement_stockMovements]
  exact setById_of_fresh StockMovement.id s.stockMovements _ hfresh

/-- A movement aimed at a material id that exists nowhere. -/
def c10Ghost : InsertStockMovement :=
  { materialId := "ghost", type := .saida, quantity := 5, userId := "u1" }

/-- C10, witness: against the empty store the dangling movement is
persisted and returned and no material changes. -/
theorem C10_witness :
    (createStockMovement emptyStorage c10Ghost "mv1" 3).1 = mkStockMovement c10Ghost "mv1" 3 ∧
    (createStockMovement emptyStorage c10Ghost "mv1" 3).2.stockMovements =
      emptyStorage.stockMovements ++ [mkStockMovement c10Ghost "mv1" 3] ∧
    (createStockMovement emptyStorage c10Ghost "mv1" 3).2.materials =
      emptyStorage.materials ∧
    (mkStockMovement c10Ghost "mv1" 3).materialId = c10Ghost.materialId :=
  C10_dangling_movement emptyStorage c10Ghost "mv1" 3 rfl rfl

/-- C2: for a stored requisition that is not yet SIGNED, with a signer id
that (when supplied) equals its employee, `signRequisition` succeeds: it
returns the updated requisition (status ASSINADA, `signedAt` stamped, not
the movement), persists it, and appends exactly one OUTBOUND movement
carrying the requisition's material, quantity, employee as user, a link
back to the requisition, and the labelled note. -/
theorem C2_sign_success (s : Storage) (rid : String) (dev ip signerId : Option String)
    (mvId : String) (now : Nat) (r : Requisition)
    (hfind : findById Requisition.id s.requisitions rid = some r)
    (hstatus : r.status ≠ .assinada)
    (hsigner : ∀ sid, signerId = some sid → r.employeeId = sid)
    (hfresh : findById StockMovement.id s.stockMovements mvId = none) :
    ∃ q s2 mv,
      signRequisition s rid dev ip signerId mvId now = .ok (q, s2) ∧
      q.status = .assinada ∧ q.signedAt = some now ∧ q.id = r.id ∧
      findById Requisition.id s2.requisitions rid = some q ∧
      s2.stockMovements = s.stockMovements ++ [mv] ∧
      mv.id = mvId ∧ mv.materialId = r.materialId ∧ mv.type = .saida ∧
      mv.quantity = r.quantity ∧ mv.userId = r.employeeId ∧
      mv.requisitionId = some rid ∧
      (r.observation = none → mv.observation = some "Requisição assinada") ∧
      (∀ t, r.observation = some t → t ≠ "" →
        mv.observation = some ("Requisição assinada - " ++ t)) := by
  have hkey : r.id = rid := findById_eq_some_key _ _ _ _ hfind
  have hguard : signerMismatch signerId r.employeeId = false := by
    cases signerId with
    | none => rfl
    | some sid =>
      have he := hsigner sid rfl
      simp [signerMismatch, he]
  have heq := signRequisition_ok_eq s rid dev ip signerId mvId now r hfind hguard hstatus
  refine ⟨signedUpdate r dev ip now,
    (createStockMovement
      { s with requisitions := setById Requisition.id s.requisitions (signedUpdate r dev ip now) }
      (signMovementPayload r rid) mvId now).2,
    mkStockMovement (signMovementPayload r rid) mvId now,
    heq, rfl, rfl, rfl, ?_, ?_, rfl, rfl, rfl, rfl, rfl, rfl, ?_, ?_⟩
  · rw [createStockMovement_requisitions]
    rw [show rid = Requisition.id (signedUpdate r dev ip now) from hkey.symm]
    exact findById_setById_same Requisition.id s.requisitions _
  · rw [createStockMovement_stockMovements]
    exact setById_of_fresh StockMovement.id s.stockMovements _ hfresh
  · intro hobs
    simp [mkStockMovement, signMovementPayload, signObservationText, hobs]
  · intro t ht hne
    simp [mkStockMovement, signMovementPayload, signObservationText, ht, hne]

/-- A pending requisition for 5 units with a note, owned by employee e1. -/
def c2Req : Requisition :=
  { id := "r1", employeeId := "e1", materialId := "m1", quantity := 5,
    observation := some "urgente", createdById := "admin" }

/-- A store holding only `c2Req`. -/
def c2Storage : Storage := { requisitions := [c2Req] }

/-- C2, witness: signing `c2Req` as its own employee succeeds with all the
stated effects. -/
theorem C2_witness :
    ∃ q s2 mv,
      signRequisition c2Storage "r1" (some "dev") (some "ip") (some "e1") "mv1" 9 =
        .ok (q, s2) ∧
      q.status = .assinada ∧ q.signedAt = some 9 ∧ q.id = c2Req.id ∧
      findById Requisition.id s2.requisitions "r1" = some q ∧
      s2.stockMovements = c2Storage.stockMovements ++ [mv] ∧
      mv.id = "mv1" ∧ mv.materialId = c2Req.materialId ∧ mv.type = .saida ∧
      mv.quantity = c2Req.quantity ∧ mv.userId = c2Req.employeeId ∧
      mv.requisitionId = some "r1" ∧
      (c2Req.observation = none → mv.observation = some "Requisição assinada") ∧
      (∀ t, c2Req.observation = some t → t ≠ "" →
        mv.observation = some ("Requisição assinada - " ++ t)) :=
  C2_sign_success c2Storage "r1" (some "dev") (some "ip") (some "e1") "mv1" 9 c2Req rfl
    (by decide) (fun sid h => by cases h; rfl) rfl

/-- An already signed requisition owned by employee e1. -/
def c3Req : Requisition :=
  { id := "r1", employeeId := "e1", materialId := "m1", quantity := 2,
    status := .assinada, createdById := "admin" }

/-- A store holding only the signed `c3Req`. -/
def c3Storage : Storage := { requisitions := [c3Req] }

/-- C3, counterexample: calling `signRequisition` on a SIGNED requisition
with a mismatching signer id fails with Forbidden, not AlreadySigned — the
signer check runs first, so the claim's "every call fails with
AlreadySigned" is false. -/
theorem C3_counterexample :
    c3Req.status = .assinada ∧
    signRequisition c3Storage "r1" none none (some "zz") "mv1" 5 =
      .error .forbidden ∧
    SignError.forbidden ≠ SignError.alreadySigned :=
  ⟨rfl, rfl, by decide⟩

/-- C3 (amended): on a SIGNED requisition, every `signRequisition` call
whose signer id (when supplied) matches the employee fails with
AlreadySigned and leaves the whole store unchanged (a mismatching signer
instead fails with Forbidden, likewise leaving the store unchanged, per
the C4 theorem). -/
theorem C3_already_signed_rejected (s : Storage) (rid : String)
    (dev ip signerId : Option String) (mvId : String) (now : Nat) (r : Requisition)
    (hfind : findById Requisition.id s.requisitions rid = some r)
    (hstatus : r.status = .assinada)
    (hsigner : ∀ sid, signerId = some sid → r.employeeId = sid) :
    signRequisition s rid dev ip signerId mvId now = .error .alreadySigned ∧
    signRequisitionFinalState s rid dev ip signerId mvId now = s := by
  have hguard : signerMismatch signerId r.employeeId = false := by
    cases signerId with
    | none => rfl
    | some sid =>
      have he := hsigner sid rfl
      simp [signerMismatch, he]
  have heq := signRequisition_alreadySigned_eq s rid dev ip signerId mvId now r hfind
    hguard hstatus
  refine ⟨heq, ?_⟩
  unfold signRequisitionFinalState
  rw [heq]

/-- C3, witness: re-signing the signed `c3Req` as its own employee fails
with AlreadySigned and the store is exactly what it was. -/
theorem C3_witness :
    signRequisition c3Storage "r1" none none (some "e1") "mv1" 6 =
      .error .alreadySigned ∧
    signRequisitionFinalState c3Storage "r1" none none (some "e1") "mv1" 6 = c3Storage :=
  C3_already_signed_rejected c3Storage "r1" none none (some "e1") "mv1" 6 c3Req rfl rfl
    (fun sid h => by cases h; rfl)

/-- A pending requisition owned by employee e1. -/
def c4Req : Requisition :=
  { id := "r1", employeeId := "e1", materialId := "m1", quantity := 2,
    createdById := "admin" }

/-- A store holding only the pending `c4Req`. -/
def c4Storage : Storage := { requisitions := [c4Req] }

/-- C4, counterexample: supplying the empty string as signer id — a signer
id different from employee e1 — does NOT fail with Forbidden: the source
guard tests JavaScript truthiness of `signerId`, so `""` skips the check
and the call actually signs the requisition. -/
theorem C4_counterexample :
    ("" : String) ≠ c4Req.employeeId ∧
    signRequisition c4Storage "r1" none none (some "") "mv1" 7 ≠
      .error .forbidden ∧
    (findById Requisition.id
        (signRequisitionFinalState c4Storage "r1" none none (some "") "mv1" 7).requisitions
        "r1").map Requisition.status = some .assinada := by
  have hok := signRequisition_ok_eq c4Storage "r1" none none (some "") "mv1" 7 c4Req rfl
    rfl (by decide)
  refine ⟨by decide, ?_, rfl⟩
  rw [hok]
  simp

/-- C4 (amended): supplying a non-empty signer id different from the
requisition's employee always fails with Forbidden and leaves the whole
store unchanged; with no signer id (or the falsy empty string) the check
is skipped. -/
theorem C4_forbidden_mismatch (s : Storage) (rid : String) (dev ip : Option String)
    (mvId : String) (now : Nat) (sid : String) (r : Requisition)
    (hfind : findById Requisition.id s.requisitions rid = some r)
    (hsid : sid ≠ "")
    (hne : r.employeeId ≠ sid) :
    signRequisition s rid dev ip (some sid) mvId now = .error .forbidden ∧
    signRequisitionFinalState s rid dev ip (some sid) mvId now = s := by
  have hguard : signerMismatch (some sid) r.employeeId = true := by
    simp [signerMismatch]
    exact ⟨hsid, hne⟩
  have heq := signRequisition_forbidden_eq s rid dev ip (some sid) mvId now r hfind hguard
  refine ⟨heq, ?_⟩
  unfold signRequisitionFinalState
  rw [heq]

/-- C4, witness: signing `c4Req` with the non-empty mismatching signer id
zz fails with Forbidden and the store is exactly what it was. -/
theorem C4_witness :
    signRequisition c4Storage "r1" none none (some "zz") "mv1" 8 = .error .forbidden ∧
    signRequisitionFinalState c4Storage "r1" none none (some "zz") "mv1" 8 = c4Storage :=
  C4_forbidden_mismatch c4Storage "r1" none none "mv1" 8 "zz" c4Req rfl (by decide)
    (by decide)

/-- An update payload explicitly resetting the status to PENDENTE. -/
def c6Patch : UpdateRequisition := { status := some .pendente }

/-- C6, counterexample: `updateRequisition` with a payload carrying
`status = PENDENTE` moves a SIGNED requisition back to PENDING — the
repository does expose an operation that reverts the transition. -/
theorem C6_counterexample :
    (findById Requisition.id c3Storage.requisitions "r1").map Requisition.status =
      some .assinada ∧
    (findById Requisition.id
        (applyRepoOp c3Storage (.update "r1" c6Patch 9)).requisitions "r1").map
      Requisition.status = some .pendente :=
  ⟨rfl, rfl⟩

/-- C6 (amended): once a requisition is SIGNED, no sequence of repository
operations returns it to PENDING, provided created requisitions get fresh
ids and no `updateRequisition` payload explicitly carries status PENDENTE;
`signRequisition` and `createRequisition` alone can never revert it. -/
theorem C6_signed_never_reverts (ops : List RepoOp) (s : Storage) (rid : String)
    (r : Requisition)
    (hops : ∀ op ∈ ops, opPreservesSigned rid op = true)
    (hfind : findById Requisition.id s.requisitions rid = some r)
    (hsigned : r.status = .assinada) :
    ∀ q, findById Requisition.id (applyRepoOps s ops).requisitions rid = some q →
      q.status ≠ .pendente := by
  apply applyRepoOps_preserves_nonpendente ops s rid hops
  intro q hq
  rw [hfind] at hq
  cases hq
  rw [hsigned]
  decide

/-- A requisition payload used by the C6 witness sequence. -/
def c6NewInput : InsertRequisition :=
  { employeeId := "e2"
    materialId := "m1"
    quantity := 1
    createdById := "admin" }

/-- A mixed operation sequence: a benign update of the signed requisition,
a sign attempt on another id, and a freshly-created requisition. -/
def c6Ops : List RepoOp :=
  [RepoOp.update "r1" { quantity := some 9 } 10,
    RepoOp.sign "r2" none none none "mv9" 11,
    RepoOp.create c6NewInput "r3" 12]

/-- C6, witness: after running `c6Ops` over the store holding the signed
requisition, its status is still not PENDENTE. -/
theorem C6_witness :
    (findById Requisition.id (applyRepoOps c3Storage c6Ops).requisitions "r1").map
      Requisition.status ≠ some RequisitionStatus.pendente := by
  intro hmap
  rcases Option.map_eq_some'.mp hmap with ⟨q, hq, hstat⟩
  exact C6_signed_never_reverts c6Ops c3Storage "r1" c3Req (by decide) rfl rfl q hq hstat

/-- C7: the admin sign endpoint responds with the status the storage layer
attached to the failure — 400 for AlreadySigned, 403 for Forbidden, 404
for NotFound — whenever the underlying `signRequisition` fails. -/
theorem C7_admin_sign_error_mapping (s : Storage) (rid : String)
    (dev ip : Option String) (mvId : String) (now : Nat) (e : SignError)
    (h : signRequisition s rid dev ip none mvId now = .error e) :
    adminSignResponseStatus s rid dev ip mvId now = signErrorStatus e ∧
    signErrorStatus .alreadySigned = 400 ∧
    signErrorStatus .forbidden = 403 ∧
    signErrorStatus .notFound = 404 := by
  refine ⟨?_, rfl, rfl, rfl⟩
  unfold adminSignResponseStatus
  rw [h]
  cases e <;> simp [signErrorStatus]

/-- C7, witness: signing a nonexistent requisition through the admin
handler responds 404, the NotFound status. -/
theorem C7_witness :
    adminSignResponseStatus emptyStorage "nope" none none "mv1" 1 =
      signErrorStatus SignError.notFound ∧
    signErrorStatus .alreadySigned = 400 ∧
    signErrorStatus .forbidden = 403 ∧
    signErrorStatus .notFound = 404 :=
  C7_admin_sign_error_mapping emptyStorage "nope" none none "mv1" 1 SignError.notFound rfl

/-- C9: no response body produced by the employee register, login, or me
handlers contains the `passwordHash` key — every success path routes the
user record through `sanitizeUser`, which destructures the hash away, and
every failure path returns only message bodies.  The property holds for
every store, every payload, and every behavior of the scrypt comparison. -/
theorem C9_password_hash_never_returned :
    (∀ s p hash newId now,
      "passwordHash" ∉ bodyKeys (employeeRegister s p hash newId now).2.1) ∧
    (∀ s p verify, "passwordHash" ∉ bodyKeys (employeeLogin s p verify).2.1) ∧
    (∀ s sess, "passwordHash" ∉ bodyKeys (employeeMe s sess).2) := by
  have hsan : "passwordHash" ∉ sanitizeUserKeys := by decide
  have hmsg : ("passwordHash" : String) ∉ (["message"] : List String) := by decide
  have herr : ("passwordHash" : String) ∉ (["message", "errors"] : List String) := by decide
  refine ⟨?_, ?_, ?_⟩
  · intro s p hash newId now
    unfold employeeRegister
    dsimp only
    split
    · split
      · exact hmsg
      · exact hsan
    · exact herr
  · intro s p verify
    unfold employeeLogin
    split
    · split
      · exact hmsg
      · split
        · split
          · exact hsan
          · exact hmsg
        · exact hmsg
    · exact herr
  · intro s sess
    unfold employeeMe
    split
    · split
      · exact hmsg
      · split
        · exact hsan
        · exact hmsg
    · exact hmsg

end Estoque
